import Mathlib

/-!
# Verification of the MongoDB command dispatch framework (`src/mongo/db/commands.h`)

A shallow embedding of the command execution and dispatch framework:
`Command` (descriptor defaults), `CommandInvocation` (default `runAsync`,
`explain`, read-concern and mirroring defaults),
`BasicCommandWithReplyBuilderInterface` (legacy `runAsync` adapter),
the typed-command adapter (`TypedCommand::InvocationBase::run` dispatch),
the command registry, and the helper `CommandHelpers::extractOrAppendOk`.

Exceptions are modelled with `Except`; the reply builder is modelled as a
BSON body (an association list of fields); `Future<void>` resolved values are
modelled as `Status`.
-/

namespace Mongo

/-- Error codes from the framework's error taxonomy (`ErrorCodes`). -/
inductive ErrorCode where
  | illegalOperation
  | invalidOptions
  | unauthorized
  | failedToRunWithReplyBuilder
  | otherError
  deriving DecidableEq, Repr

/-- A thrown `DBException`: a classification code plus a message. -/
structure MongoError where
  code : ErrorCode
  msg : String
  deriving DecidableEq, Repr

/-- `mongo::Status`: either OK or an error with code and message. -/
inductive Status where
  | ok
  | error (e : MongoError)
  deriving DecidableEq, Repr

/-- A BSON value, reduced to the shapes the framework inspects. -/
inductive BSONValue where
  | boolV (b : Bool)
  | numV (n : Int)
  | strV (s : String)
  deriving DecidableEq, Repr

/-- BSON truthiness (`BSONElement::trueValue`): false for `false` and
numeric zero, true otherwise (strings are truthy). -/
def BSONValue.trueValue : BSONValue → Bool
  | .boolV b => b
  | .numV n => n != 0
  | .strV _ => true

/-- A BSON document body: an ordered list of named fields. -/
abbrev BSONObj : Type := List (String × BSONValue)

/-- Field lookup in a BSON document (first occurrence). -/
def BSONObj.getField (o : BSONObj) (name : String) : Option BSONValue :=
  List.lookup name o

/-- Opaque per-operation execution context (`OperationContext*`);
the framework itself never inspects it, so one abstract token suffices. -/
structure OpCtx where
  id : Nat
  deriving DecidableEq, Repr

/-- `mongo::Command` (the descriptor): process-lifetime metadata for one
operation kind. The overridable capability queries of the C++ base class are
fields whose default values are exactly the base-class bodies
(`adminOnly` returns `false`, `requiresAuth` returns `true`,
`maintenanceOk` returns `true`, `maintenanceMode` returns `false`); a
command that does not override a query is a `Command` built with that field
left at its default. In this embedding the queries are projections of an
immutable structure, so evaluating them cannot change any state. -/
structure Command where
  name : String
  aliases : List String := []
  adminOnly : Bool := false
  requiresAuth : Bool := true
  maintenanceOk : Bool := true
  maintenanceMode : Bool := false
  deriving DecidableEq, Repr

/-- `RequestExecutionContext`: bundles the operation context, the request
body, the reply-builder state and the command, matching the accessors
`getOpCtx`, `getRequest`, `getReplyBuilder` and `getCommand` used in
`commands.h`. -/
structure RequestExecutionContext where
  opCtx : OpCtx
  requestBody : BSONObj
  reply : BSONObj
  command : Command

/-- The synchronous contract of `CommandInvocation::run`: given the
operation context and the current reply-builder state, either return the
updated reply state (normal return) or throw a `MongoError`. -/
def RunFn : Type := OpCtx → BSONObj → Except Mongo.MongoError Mongo.BSONObj

/-- `CommandInvocation::runAsync` default implementation
(`commands.h:604-607`):

    virtual Future<void> runAsync(std::shared_ptr<RequestExecutionContext> rec) {
        run(rec->getOpCtx(), rec->getReplyBuilder());
        return Status::OK();
    }

It calls `run` inline; a throw from `run` propagates out of `runAsync`
itself (modelled as `.error`), and a normal return produces a future
resolved with `Status::OK()` alongside the reply state `run` produced. -/
def CommandInvocation.runAsyncDefault (run : RunFn) (rec : RequestExecutionContext) :
    Except MongoError (BSONObj × Status) :=
  match run rec.opCtx rec.reply with
  | .error e => .error e
  | .ok reply => .ok (reply, Status.ok)

/-- The spec's description of the default `runAsync`, stated in its own
words for the refinement comparison: "a degenerate adapter that executes
`run` synchronously and wraps the outcome", where a normal return of `run`
yields a future resolved with an OK status. -/
def runAsyncSpecDescription (run : RunFn) (rec : RequestExecutionContext) :
    Except MongoError (BSONObj × Status) :=
  (run rec.opCtx rec.reply).map fun reply => (reply, Status.ok)

/-- `CommandInvocation::explain` default implementation
(`commands.h:609-614`): unconditionally throws `IllegalOperation` with a
message naming the command (`"Cannot explain cmd: " << definition()->getName()`);
the reply-builder state is never touched, so the only possible outcome is
the error. -/
def CommandInvocation.explainDefault (definition : Command) (result : BSONObj) :
    Except MongoError BSONObj :=
  .error ⟨.illegalOperation, "Cannot explain cmd: " ++ definition.name⟩

/-- `repl::ReadConcernLevel`. -/
inductive ReadConcernLevel where
  | kLocalReadConcern
  | kMajorityReadConcern
  | kLinearizableReadConcern
  | kAvailableReadConcern
  | kSnapshotReadConcern
  deriving DecidableEq, Repr

/-- Modelled from the spec: `ReadConcernSupportResult`
(`read_concern_support_result.h` is not part of this header). The spec's
ConcernSupport value type carries "level → (supported: bool, reasonIfNot)"
and "defaultPermitted: (bool, reasonIfNot)"; each component is a `Status`
that is OK when supported/permitted and carries the reason otherwise. -/
structure ReadConcernSupportResult where
  readConcernSupport : Status
  defaultReadConcernPermit : Status
  deriving DecidableEq, Repr

/-- Modelled from the spec: the `{condition, status}` construction used to
build a `ReadConcernSupportResult` component ("(supported: bool,
reasonIfNot)"): the reason status applies exactly when the condition for
non-support holds, and the component is OK otherwise. -/
def condStatus (cond : Bool) (reason : MongoError) : Status :=
  if cond then .error reason else .ok

/-- The error `{ErrorCodes::InvalidOptions, "read concern not supported"}`
(`commands.h:631-632`). -/
def kReadConcernNotSupported : MongoError :=
  ⟨.invalidOptions, "read concern not supported"⟩

/-- The error `{ErrorCodes::InvalidOptions, "default read concern not
permitted"}` (`commands.h:633-634`). -/
def kDefaultReadConcernNotPermitted : MongoError :=
  ⟨.invalidOptions, "default read concern not permitted"⟩

/-- `CommandInvocation::supportsReadConcern` default implementation
(`commands.h:630-637`):

    return {{level != repl::ReadConcernLevel::kLocalReadConcern, kReadConcernNotSupported},
            {kDefaultReadConcernNotPermitted}};
-/
def CommandInvocation.supportsReadConcernDefault (level : ReadConcernLevel) :
    ReadConcernSupportResult :=
  { readConcernSupport :=
      condStatus (level != ReadConcernLevel.kLocalReadConcern) kReadConcernNotSupported
    defaultReadConcernPermit := .error kDefaultReadConcernNotPermitted }

/-- `BasicCommandWithReplyBuilderInterface::supportsReadConcern` default
implementation (`commands.h:803-811`): textually the same body as the
`CommandInvocation` default, with the command object as an unused extra
argument. -/
def BasicCommandWithReplyBuilderInterface.supportsReadConcernDefault
    (cmdObj : BSONObj) (level : ReadConcernLevel) : ReadConcernSupportResult :=
  { readConcernSupport :=
      condStatus (level != ReadConcernLevel.kLocalReadConcern) kReadConcernNotSupported
    defaultReadConcernPermit := .error kDefaultReadConcernNotPermitted }

/-- Outcome of a call to `appendMirrorableRequest`: either fields appended
to the builder, or the fatal `MONGO_UNREACHABLE` branch was reached. -/
inductive MirrorOutcome where
  | appended (fields : BSONObj)
  | fatalUnreachable
  deriving DecidableEq

/-- `CommandInvocation::supportsReadMirroring` default implementation
(`commands.h:642-644`): returns `false`. -/
def CommandInvocation.supportsReadMirroringDefault : Bool :=
  false

/-- `CommandInvocation::appendMirrorableRequest` default implementation
(`commands.h:649-651`): its body is solely `MONGO_UNREACHABLE`. -/
def CommandInvocation.appendMirrorableRequestDefault (builder : BSONObj) : MirrorOutcome :=
  MirrorOutcome.fatalUnreachable

/-- The mirroring-relevant surface of an invocation: its
`supportsReadMirroring` answer and its `appendMirrorableRequest` behavior. -/
structure MirrorBehavior where
  supportsReadMirroring : Bool
  appendMirrorableRequest : BSONObj → MirrorOutcome

/-- An invocation with the default mirroring behavior: both virtuals left
at their `CommandInvocation` defaults. -/
def CommandInvocation.defaultMirrorBehavior : MirrorBehavior :=
  { supportsReadMirroring := CommandInvocation.supportsReadMirroringDefault
    appendMirrorableRequest := CommandInvocation.appendMirrorableRequestDefault }

/-- A caller that honors the stated precondition for
`appendMirrorableRequest`: it consults `supportsReadMirroring` first and
invokes `appendMirrorableRequest` only when that query returns true
(`none` records that no call was made). -/
def mirrorRequestIfSupported (b : MirrorBehavior) (builder : BSONObj) : Option MirrorOutcome :=
  if b.supportsReadMirroring then some (b.appendMirrorableRequest builder) else none

/-- The contract of `BasicCommandWithReplyBuilderInterface::runWithReplyBuilder`:
runs the command against the reply builder and returns the updated reply
state together with a success flag, or throws. Arguments mirror the C++
signature `(opCtx, db, cmdObj, replyBuilder)`. -/
def RunWithReplyBuilderFn : Type :=
  OpCtx → String → BSONObj → BSONObj → Except Mongo.MongoError (Mongo.BSONObj × Bool)

/-- `BasicCommandWithReplyBuilderInterface::runAsync` default
implementation (`commands.h:749-755`):

    if (!runWithReplyBuilder(rec->getOpCtx(), db, rec->getRequest().body, rec->getReplyBuilder()))
        return Status(ErrorCodes::FailedToRunWithReplyBuilder,
                      fmt::format("Failed to run command: {}", rec->getCommand()->getName()));
    return Status::OK();
-/
def BasicCommandWithReplyBuilderInterface.runAsyncDefault
    (runWithReplyBuilder : RunWithReplyBuilderFn)
    (rec : RequestExecutionContext) (db : String) :
    Except MongoError (BSONObj × Status) :=
  match runWithReplyBuilder rec.opCtx db rec.requestBody rec.reply with
  | .error e => .error e
  | .ok (reply, false) =>
      .ok (reply, .error ⟨.failedToRunWithReplyBuilder,
                          "Failed to run command: " ++ rec.command.name⟩)
  | .ok (reply, true) => .ok (reply, Status.ok)

/-- Modelled from the spec: `CommandHelpers::extractOrAppendOk` is declared
at `commands.h:176` with its body elsewhere; its documented contract
(`commands.h:171-175`) is: if the "ok" field is present in `reply`, use its
truthiness; otherwise the absence of failure is considered success and
`reply` is patched to indicate it. Returns (whether the reply indicates
success, the possibly patched reply). -/
def CommandHelpers.extractOrAppendOk (reply : BSONObj) : Bool × BSONObj :=
  match reply.getField "ok" with
  | some v => (v.trueValue, reply)
  | none => (true, reply ++ [("ok", BSONValue.numV 1)])

/-- The handler result shape of a typed command, fixed per operation kind
when the `Derived::Invocation` class is written (the C++ selects the branch
with `std::is_void<decltype(_callTypedRun(opCtx))>` at compile time):
`typedRun` either returns `void` or returns a typed value `V`. -/
inductive TypedRunHandler (V : Type) where
  | voidReturning (typedRun : OpCtx → Except Mongo.MongoError Unit)
  | valueReturning (typedRun : OpCtx → Except Mongo.MongoError V)

/-- Modelled from the spec: `rpc::ReplyBuilderInterface::fillFrom` is not
part of this header; per the spec the typed adapter "automatically
serializes the returned value into the reply", so `fillFrom` installs the
value's field-by-field BSON representation (`serialize v`) as the reply
body. -/
def fillFrom {V : Type} (serialize : V → BSONObj) (reply : BSONObj) (v : V) : BSONObj :=
  serialize v

/-- `TypedCommand<Derived>::InvocationBase::run` (`commands.h:1026-1039`):
tag-dispatch on the handler's declared result type. For a void-returning
`typedRun`, `_runImpl(std::true_type, ...)` just calls `_callTypedRun`
and never touches the reply; for a value-returning `typedRun`,
`_runImpl(std::false_type, ...)` passes the result to `reply->fillFrom`.
Returns the reply state after `run` together with the number of times
`typedRun` was invoked; a throw from `typedRun` propagates. -/
def InvocationBase.run {V : Type} (serialize : V → BSONObj) (h : TypedRunHandler V)
    (opCtx : OpCtx) (reply : BSONObj) : Except MongoError (BSONObj × Nat) :=
  match h with
  | .voidReturning typedRun =>
      match typedRun opCtx with
      | .error e => .error e
      | .ok _ => .ok (reply, 1)
  | .valueReturning typedRun =>
      match typedRun opCtx with
      | .error e => .error e
      | .ok v => .ok (fillFrom serialize reply v, 1)

/-- Events observable while the dispatcher handles one invocation. -/
inductive DispatchEvent where
  | concernNegotiated
  | ranInvocation
  deriving DecidableEq, Repr

/-- The dispatcher-facing surface of a `CommandInvocation`: the pure
write-concern predicate and the execution function. -/
structure Invocation where
  definition : Command
  supportsWriteConcern : Bool
  run : RunFn

/-- Modelled from the spec: the dispatcher (`CommandHelpers::runCommandInvocation`
is declared at `commands.h:252` with its body elsewhere). Per the spec,
concern queries are pure predicates evaluated before `run`/`runAsync`, and
a negative/unsupported result short-circuits dispatch with an
`InvalidOptions` failure so that `run` is never reached. The returned trace
records which dispatch stages were entered; `ranInvocation` appears exactly
when `run` was called. -/
def dispatchInvocation (inv : Invocation) (opCtx : OpCtx) (reply : BSONObj) :
    (Except MongoError BSONObj) × List DispatchEvent :=
  if inv.supportsWriteConcern then
    (inv.run opCtx reply, [DispatchEvent.concernNegotiated, DispatchEvent.ranInvocation])
  else
    (.error ⟨.invalidOptions, "writeConcern is not supported"⟩,
     [DispatchEvent.concernNegotiated])

/-- The registry's name→command table (`StringMap<Command*>`), modelled as
an ordered association list from name to the registered command. -/
abbrev CommandMap : Type := List (String × Mongo.Command)

/-- Inserts `command` under each of `names` in turn; any name already bound
in the table is a duplicate-registration collision, which the real registry
treats as fatal at startup (modelled as `none`). -/
def CommandRegistry.insertAll (m : CommandMap) (command : Command) :
    List String → Option CommandMap
  | [] => some m
  | n :: ns =>
      if (List.lookup n m).isSome then none
      else CommandRegistry.insertAll ((n, command) :: m) command ns

/-- Modelled from the spec: `CommandRegistry::registerCommand` is declared
at `commands.h:1065` with its body elsewhere; per the spec it binds the
command's name and every alias to the same descriptor, and a name/alias
collision aborts the process (modelled as `none`). -/
def CommandRegistry.registerCommand (m : CommandMap) (command : Command)
    (name : String) (aliases : List String) : Option CommandMap :=
  CommandRegistry.insertAll m command (name :: aliases)

/-- Modelled from the spec: `CommandRegistry::findCommand` is declared at
`commands.h:1067` with its body elsewhere; it is a read-only lookup in the
name→command table. -/
def CommandRegistry.findCommand (m : CommandMap) (name : String) : Option Command :=
  List.lookup name m

/-! Concrete instances used by the witness theorems. -/

/-- A concrete operation context. -/
def exampleOpCtx : OpCtx := ⟨0⟩

/-- A concrete command ("ping" with one legacy alias), with every
capability query left at its base-class default. -/
def exampleCommand : Command := { name := "ping", aliases := ["legacyPing"] }

/-- A concrete request execution context carrying `exampleCommand`, an
empty request body and an empty reply builder. -/
def exampleRec : RequestExecutionContext :=
  { opCtx := exampleOpCtx, requestBody := [], reply := [], command := exampleCommand }

/-- A concrete serializer for a `Nat`-valued typed result. -/
def exampleSerialize (n : Nat) : BSONObj := [("value", BSONValue.numV (n : Int))]

/-- A concrete void-returning `typedRun` that returns normally. -/
def exampleVoidTypedRun : OpCtx → Except MongoError Unit := fun _ => .ok ()

/-- A concrete value-returning `typedRun` that returns `42`. -/
def exampleValueTypedRun : OpCtx → Except MongoError Nat := fun _ => .ok 42

/-- A concrete `run` that succeeds and leaves the reply unchanged. -/
def exampleRun : RunFn := fun _ reply => .ok reply

/-- A concrete invocation whose `supportsWriteConcern` query is false. -/
def exampleNoWriteConcernInvocation : Invocation :=
  { definition := exampleCommand, supportsWriteConcern := false, run := exampleRun }

/-- A concrete `runWithReplyBuilder` that returns `false` without throwing. -/
def exampleRunWithReplyBuilderFalse : RunWithReplyBuilderFn :=
  fun _ _ _ reply => .ok (reply, false)

/-- A concrete `runWithReplyBuilder` that returns `true`. -/
def exampleRunWithReplyBuilderTrue : RunWithReplyBuilderFn :=
  fun _ _ _ reply => .ok (reply, true)

/-- The registry table that registering `exampleCommand` under "ping" with
alias "legacyPing" into an empty registry produces. -/
def exampleRegisteredMap : CommandMap :=
  [("legacyPing", exampleCommand), ("ping", exampleCommand)]

/-! Helper lemmas about association-list lookup, shared by the registry
and reply-normalization theorems. -/

/-- Lookup skips a head entry with a different key. -/
theorem lookup_cons_of_ne {β : Type} (k k' : String) (v : β) (l : List (String × β))
    (h : k ≠ k') : List.lookup k ((k', v) :: l) = List.lookup k l := by
  have hb : (k == k') = false := beq_eq_false_iff_ne.mpr h
  simp [List.lookup, hb]

/-- Lookup finds a head entry with the same key. -/
theorem lookup_cons_self {β : Type} (k : String) (v : β) (l : List (String × β)) :
    List.lookup k ((k, v) :: l) = some v := by
  simp [List.lookup]

/-- When a key is absent from the left list, lookup over an append falls
through to the right list. -/
theorem lookup_append_of_left_none {β : Type} (k : String) (l l' : List (String × β))
    (h : List.lookup k l = none) :
    List.lookup k (l ++ l') = List.lookup k l' := by
  induction l with
  | nil => simp
  | cons p t ih =>
      obtain ⟨k', v⟩ := p
      by_cases hk : k = k'
      · subst hk
        rw [lookup_cons_self] at h
        exact absurd h (by simp)
      · rw [lookup_cons_of_ne _ _ _ _ hk] at h
        simp only [List.cons_append]
        rw [lookup_cons_of_ne _ _ _ _ hk]
        exact ih h

/-- Registration preserves every binding already present in the table:
`insertAll` only adds entries under keys it first checked to be absent. -/
theorem insertAll_preserves_existing (c : Command) :
    ∀ (ns : List String) (m mFin : CommandMap),
      CommandRegistry.insertAll m c ns = some mFin →
      ∀ k v, List.lookup k m = some v → List.lookup k mFin = some v := by
  intro ns
  induction ns with
  | nil =>
      intro m mFin h k v hk
      simp [CommandRegistry.insertAll] at h
      exact h ▸ hk
  | cons a as ih =>
      intro m mFin h k v hk
      cases hl : List.lookup a m with
      | some w => simp [CommandRegistry.insertAll, hl] at h
      | none =>
          simp only [CommandRegistry.insertAll, hl, Option.isSome_none, Bool.false_eq_true,
            if_false] at h
          apply ih ((a, c) :: m) mFin h
          have hkn : k ≠ a := by
            intro heq
            rw [heq, hl] at hk
            exact Option.noConfusion hk
          rw [lookup_cons_of_ne _ _ _ _ hkn]
          exact hk

/-- After a successful `insertAll`, every inserted name is bound to the
registered command in the final table. -/
theorem insertAll_binds_all (c : Command) :
    ∀ (ns : List String) (m mFin : CommandMap),
      CommandRegistry.insertAll m c ns = some mFin →
      ∀ n ∈ ns, List.lookup n mFin = some c := by
  intro ns
  induction ns with
  | nil =>
      intro m mFin h n hn
      simp at hn
  | cons a as ih =>
      intro m mFin h n hn
      cases hl : List.lookup a m with
      | some w => simp [CommandRegistry.insertAll, hl] at h
      | none =>
          simp only [CommandRegistry.insertAll, hl, Option.isSome_none, Bool.false_eq_true,
            if_false] at h
          rcases List.mem_cons.mp hn with rfl | htail
          · exact insertAll_preserves_existing c as _ mFin h n c (lookup_cons_self n c m)
          · exact ih _ mFin h n htail

/-! The claims. -/

/-- Claim C1: for every `CommandInvocation` that does not override
`runAsync`, the default `runAsync(rec)` is a degenerate adapter over `run`:
it executes `run(rec->getOpCtx(), rec->getReplyBuilder())` synchronously
inline and wraps the outcome as a future — a normal return of `run` yields
a future resolved with an OK status, so the observable semantics of the
default `runAsync` is identical to that of `run`. -/
theorem runAsync_default_degenerate_adapter (run : RunFn) (rec : RequestExecutionContext) :
    CommandInvocation.runAsyncDefault run rec = runAsyncSpecDescription run rec ∧
    (∀ reply s, CommandInvocation.runAsyncDefault run rec = .ok (reply, s) ↔
      (run rec.opCtx rec.reply = .ok reply ∧ s = Status.ok)) ∧
    (∀ e, CommandInvocation.runAsyncDefault run rec = .error e ↔
      run rec.opCtx rec.reply = .error e) := by
  refine ⟨?_, ?_, ?_⟩ <;>
    cases h : run rec.opCtx rec.reply <;>
      simp [CommandInvocation.runAsyncDefault, runAsyncSpecDescription, Except.map, h,
        and_comm, eq_comm]

/-- Claim C2: `TypedCommand::InvocationBase::run` dispatches on the
handler's declared result type, fixed per operation kind: a void-returning
`typedRun` is called exactly once and the reply is left unwritten, so a
normal return is success and the (normalized) success indicator of the
produced reply is true; a `V`-returning `typedRun` has its result
serialized into the reply via `fillFrom`, so the produced reply body is
exactly `V`'s field-by-field representation `serialize v`. -/
theorem typed_run_result_dispatch {V : Type} (serialize : V → BSONObj)
    (voidRun : OpCtx → Except MongoError Unit) (valueRun : OpCtx → Except MongoError V)
    (opCtx : OpCtx) (reply : BSONObj) (v : V) :
    (voidRun opCtx = .ok () →
      InvocationBase.run serialize (.voidReturning voidRun) opCtx reply = .ok (reply, 1) ∧
      (reply.getField "ok" = none → (CommandHelpers.extractOrAppendOk reply).1 = true)) ∧
    (valueRun opCtx = .ok v →
      InvocationBase.run serialize (.valueReturning valueRun) opCtx reply =
        .ok (serialize v, 1)) := by
  constructor
  · intro h
    refine ⟨by simp [InvocationBase.run, h], ?_⟩
    intro hok
    simp [CommandHelpers.extractOrAppendOk, hok]
  · intro h
    simp [InvocationBase.run, h, fillFrom]

/-- Witness for C2 at a concrete typed command: the void handler leaves the
empty reply empty, and the `Nat`-returning handler produces exactly the
serialized value. -/
theorem typed_run_result_dispatch_witness :
    InvocationBase.run exampleSerialize (TypedRunHandler.voidReturning exampleVoidTypedRun)
      exampleOpCtx [] = .ok ([], 1) ∧
    InvocationBase.run exampleSerialize (TypedRunHandler.valueReturning exampleValueTypedRun)
      exampleOpCtx [] = .ok (exampleSerialize 42, 1) :=
  ⟨((typed_run_result_dispatch exampleSerialize exampleVoidTypedRun exampleValueTypedRun
      exampleOpCtx [] 42).1 rfl).1,
   (typed_run_result_dispatch exampleSerialize exampleVoidTypedRun exampleValueTypedRun
      exampleOpCtx [] 42).2 rfl⟩

/-- Claim C3: for every `Invocation` whose `supportsWriteConcern()` is
false, the dispatcher short-circuits with an `InvalidOptions` failure
before execution and its `run`/`runAsync` is never reached (the dispatch
trace contains no `ranInvocation` event). -/
theorem unsupported_write_concern_short_circuits (inv : Invocation) (opCtx : OpCtx)
    (reply : BSONObj) (h : inv.supportsWriteConcern = false) :
    (dispatchInvocation inv opCtx reply).1 =
      .error ⟨ErrorCode.invalidOptions, "writeConcern is not supported"⟩ ∧
    DispatchEvent.ranInvocation ∉ (dispatchInvocation inv opCtx reply).2 := by
  simp [dispatchInvocation, h]

/-- Witness for C3 at a concrete invocation that does not support write
concern. -/
theorem unsupported_write_concern_short_circuits_witness :
    (dispatchInvocation exampleNoWriteConcernInvocation exampleOpCtx []).1 =
      .error ⟨ErrorCode.invalidOptions, "writeConcern is not supported"⟩ ∧
    DispatchEvent.ranInvocation ∉
      (dispatchInvocation exampleNoWriteConcernInvocation exampleOpCtx []).2 :=
  unsupported_write_concern_short_circuits exampleNoWriteConcernInvocation exampleOpCtx [] rfl

/-- Claim C4: for every command registered under a name and a set of
aliases, `findCommand` applied to the registered name and to any of its
aliases returns the identical command instance it was registered with. -/
theorem findCommand_name_and_aliases_agree (m mFin : CommandMap) (c : Command)
    (name : String) (aliases : List String)
    (h : CommandRegistry.registerCommand m c name aliases = some mFin) :
    CommandRegistry.findCommand mFin name = some c ∧
    ∀ a ∈ aliases, CommandRegistry.findCommand mFin a = some c := by
  unfold CommandRegistry.registerCommand at h
  unfold CommandRegistry.findCommand
  constructor
  · exact insertAll_binds_all c (name :: aliases) m mFin h name (List.mem_cons_self _ _)
  · intro a ha
    exact insertAll_binds_all c (name :: aliases) m mFin h a (List.mem_cons_of_mem _ ha)

/-- Witness for C4: registering "ping" with alias "legacyPing" into an
empty registry makes both names resolve to the same command. -/
theorem findCommand_name_and_aliases_agree_witness :
    CommandRegistry.findCommand exampleRegisteredMap "ping" = some exampleCommand ∧
    CommandRegistry.findCommand exampleRegisteredMap "legacyPing" = some exampleCommand :=
  ⟨(findCommand_name_and_aliases_agree [] exampleRegisteredMap exampleCommand "ping"
      ["legacyPing"] (by decide)).1,
   (findCommand_name_and_aliases_agree [] exampleRegisteredMap exampleCommand "ping"
      ["legacyPing"] (by decide)).2 "legacyPing" (by decide)⟩

/-- Claim C5: for every `CommandInvocation` that does not override
`explain`, calling `explain` throws an error classified `IllegalOperation`
whose message names the command that cannot be explained; since the only
outcome is this error, the reply is never populated with a result. -/
theorem explain_default_illegal_operation (definition : Command) (result : BSONObj) :
    CommandInvocation.explainDefault definition result =
      .error ⟨ErrorCode.illegalOperation, "Cannot explain cmd: " ++ definition.name⟩ :=
  rfl

/-- Claim C6: the default `BasicCommandWithReplyBuilderInterface::runAsync`
maps a `false` return of `runWithReplyBuilder` to a failed status with code
`FailedToRunWithReplyBuilder` whose message names the command, and a `true`
return to an OK status. -/
theorem basic_runAsync_status_mapping (runWithReplyBuilder : RunWithReplyBuilderFn)
    (rec : RequestExecutionContext) (db : String) (reply : BSONObj) :
    (runWithReplyBuilder rec.opCtx db rec.requestBody rec.reply = .ok (reply, false) →
      BasicCommandWithReplyBuilderInterface.runAsyncDefault runWithReplyBuilder rec db =
        .ok (reply, .error ⟨ErrorCode.failedToRunWithReplyBuilder,
                            "Failed to run command: " ++ rec.command.name⟩)) ∧
    (runWithReplyBuilder rec.opCtx db rec.requestBody rec.reply = .ok (reply, true) →
      BasicCommandWithReplyBuilderInterface.runAsyncDefault runWithReplyBuilder rec db =
        .ok (reply, Status.ok)) := by
  constructor <;> intro h <;>
    simp [BasicCommandWithReplyBuilderInterface.runAsyncDefault, h]

/-- Witness for C6 at concrete legacy adapters that return `false` and
`true` respectively. -/
theorem basic_runAsync_status_mapping_witness :
    BasicCommandWithReplyBuilderInterface.runAsyncDefault exampleRunWithReplyBuilderFalse
      exampleRec "db" =
      .ok ([], .error ⟨ErrorCode.failedToRunWithReplyBuilder,
                       "Failed to run command: " ++ exampleCommand.name⟩) ∧
    BasicCommandWithReplyBuilderInterface.runAsyncDefault exampleRunWithReplyBuilderTrue
      exampleRec "db" = .ok ([], Status.ok) :=
  ⟨(basic_runAsync_status_mapping exampleRunWithReplyBuilderFalse exampleRec "db" []).1 rfl,
   (basic_runAsync_status_mapping exampleRunWithReplyBuilderTrue exampleRec "db" []).2 rfl⟩

/-- Claim C7: `CommandHelpers::extractOrAppendOk` returns the truthiness of
the reply's "ok" field when present; when absent it patches the reply to
indicate success (appending an "ok" field whose value is truthy) and
returns true. -/
theorem extractOrAppendOk_contract (reply : BSONObj) (v : BSONValue) :
    (reply.getField "ok" = some v →
      CommandHelpers.extractOrAppendOk reply = (v.trueValue, reply)) ∧
    (reply.getField "ok" = none →
      CommandHelpers.extractOrAppendOk reply = (true, reply ++ [("ok", BSONValue.numV 1)]) ∧
      BSONObj.getField (reply ++ [("ok", BSONValue.numV 1)]) "ok" = some (BSONValue.numV 1) ∧
      (BSONValue.numV 1).trueValue = true) := by
  constructor
  · intro h
    simp [CommandHelpers.extractOrAppendOk, BSONObj.getField] at h ⊢
    simp [h]
  · intro h
    refine ⟨?_, ?_, rfl⟩
    · simp only [CommandHelpers.extractOrAppendOk, h]
    · unfold BSONObj.getField at h ⊢
      rw [lookup_append_of_left_none _ _ _ h]
      exact lookup_cons_self _ _ _

/-- Witness for C7: a reply with a falsy "ok" field yields false and is
left unchanged; an empty reply is patched with ok=1 and yields true. -/
theorem extractOrAppendOk_contract_witness :
    CommandHelpers.extractOrAppendOk [("ok", BSONValue.boolV false)] =
      (false, [("ok", BSONValue.boolV false)]) ∧
    CommandHelpers.extractOrAppendOk [] = (true, [("ok", BSONValue.numV 1)]) :=
  ⟨(extractOrAppendOk_contract [("ok", BSONValue.boolV false)] (BSONValue.boolV false)).1 rfl,
   ((extractOrAppendOk_contract [] (BSONValue.boolV false)).2 rfl).1⟩

/-- Claim C8: the descriptor capability queries default to the documented
conservative values: a `Command` that does not override them has
`requiresAuth() = true`, `maintenanceOk() = true` and `adminOnly() = false`;
in this embedding the queries are projections of an immutable structure,
so evaluating them changes no observable state. -/
theorem command_capability_query_defaults (name : String) (aliases : List String) :
    ({ name := name, aliases := aliases } : Command).requiresAuth = true ∧
    ({ name := name, aliases := aliases } : Command).maintenanceOk = true ∧
    ({ name := name, aliases := aliases } : Command).adminOnly = false :=
  ⟨rfl, rfl, rfl⟩

/-- Claim C9: the default `supportsReadConcern` supports exactly the local
read concern level — OK for local, `InvalidOptions` "read concern not
supported" otherwise — and never permits applying a default read concern
(`InvalidOptions` "default read concern not permitted"); the
`BasicCommandWithReplyBuilderInterface` default coincides with the
`CommandInvocation` default for every command object. -/
theorem supportsReadConcern_default_local_only (level : ReadConcernLevel) (cmdObj : BSONObj) :
    ((CommandInvocation.supportsReadConcernDefault level).readConcernSupport = Status.ok ↔
      level = ReadConcernLevel.kLocalReadConcern) ∧
    (CommandInvocation.supportsReadConcernDefault level).readConcernSupport =
      (if level = ReadConcernLevel.kLocalReadConcern then Status.ok
       else Status.error kReadConcernNotSupported) ∧
    (CommandInvocation.supportsReadConcernDefault level).defaultReadConcernPermit =
      Status.error kDefaultReadConcernNotPermitted ∧
    BasicCommandWithReplyBuilderInterface.supportsReadConcernDefault cmdObj level =
      CommandInvocation.supportsReadConcernDefault level := by
  refine ⟨?_, ?_, rfl, rfl⟩ <;> cases level <;> decide

/-- Claim C10: the default `supportsReadMirroring` returns false and the
default `appendMirrorableRequest` is solely the fatal unreachable branch;
a caller honoring the precondition that `appendMirrorableRequest` is
invoked only when `supportsReadMirroring()` is true never reaches the
default's fatal branch (it makes no call at all). -/
theorem mirroring_default_fatal_branch_unreached (builder : BSONObj) :
    CommandInvocation.supportsReadMirroringDefault = false ∧
    CommandInvocation.appendMirrorableRequestDefault builder = MirrorOutcome.fatalUnreachable ∧
    mirrorRequestIfSupported CommandInvocation.defaultMirrorBehavior builder = none :=
  ⟨rfl, rfl, rfl⟩

end Mongo
